import Mathlib

/-!
Verification of the legal-document analysis core (risk assessment engine and
question-answering engine) of the `legal_AI_Reader` repository.

The Python modules `modules/enhanced_risk_detection.py` and
`modules/qa_engine.py` are shallowly embedded below: strings become `List Char`,
Python floats become `ℚ` (all constants involved are exact decimal fractions),
regular expressions become an executable backtracking matcher over an explicit
regex syntax tree, and each Python function becomes a Lean function of the same
name.  Python's hash-ordered `list(set(xs))` is modelled as order-preserving
deduplication (`List.eraseDups`); the properties proved below only depend on it
through emptiness and singleton cases, where every order agrees.
-/

namespace LegalAI

/-- Strings are modelled as lists of characters. -/
abbrev Str := List Char

/-- Python `str.lower()` (the embedded documents and patterns are ASCII). -/
def lowerStr (s : Str) : Str := s.map Char.toLower

/-- Python's substring test `needle in hay`. -/
def isSub (needle : Str) : Str → Bool
  | [] => needle.isEmpty
  | c :: t => needle.isPrefixOf (c :: t) || isSub needle t

/-- Python's whitespace class (`\s`, and the characters removed by `str.strip()`). -/
def isPySpace (c : Char) : Bool :=
  c == ' ' || c == '\t' || c == '\n' || c == '\r' || c == '\x0b' || c == '\x0c'

/-- Python `str.strip()`. -/
def pyStrip (s : Str) : Str :=
  ((s.dropWhile isPySpace).reverse.dropWhile isPySpace).reverse

/-- Python `str.title()` for the alphabetic/space clause names used here:
uppercase a letter that does not follow a letter, lowercase the others. -/
def pyTitleGo : Bool → Str → Str
  | _, [] => []
  | prevAlpha, c :: t =>
    (if c.isAlpha then (if prevAlpha then c.toLower else c.toUpper) else c) ::
      pyTitleGo c.isAlpha t

/-- Python `str.title()`. -/
def pyTitle (s : Str) : Str := pyTitleGo false s

/-- `"a_b".replace('_', ' ')` as used on clause-type keys. -/
def underscoreToSpace (s : Str) : Str := s.map (fun c => if c == '_' then ' ' else c)

/-! ## Risk detection (`modules/enhanced_risk_detection.py`) -/

/-- `RiskLevel` enum. -/
inductive RiskLevel where
  | low
  | medium
  | high
  | critical
deriving DecidableEq

/-- `RiskCategory` enum. -/
inductive RiskCategory where
  | liability
  | financial
  | compliance
  | operational
  | intellectual_property
  | confidentiality
  | termination
  | dispute_resolution
deriving DecidableEq

/-- The `RiskFactor` dataclass. -/
structure RiskFactor where
  text : Str
  category : RiskCategory
  level : RiskLevel
  confidence : ℚ
  explanation : Str := []
  clause_context : Str := []
  recommendations : List Str := []
  legal_precedents : List Str := []
  mitigation_strategies : List Str := []

/-- The `standard_clauses` table of `EnhancedRiskDetector._load_risk_knowledge`. -/
def standard_clauses : List (Str × List Str) :=
  [("limitation_of_liability".toList,
      ["limitation of liability".toList, "liability cap".toList, "damages limitation".toList]),
   ("force_majeure".toList,
      ["force majeure".toList, "act of god".toList, "unforeseeable circumstances".toList]),
   ("confidentiality".toList,
      ["confidentiality".toList, "non-disclosure".toList, "proprietary information".toList]),
   ("dispute_resolution".toList,
      ["dispute resolution".toList, "arbitration".toList, "mediation".toList, "governing law".toList]),
   ("termination_notice".toList,
      ["termination notice".toList, "notice period".toList, "advance notice".toList]),
   ("intellectual_property".toList,
      ["intellectual property".toList, "ip rights".toList, "proprietary rights".toList])]

/-- Critical indicator vocabulary of `_calculate_risk_level`. -/
def critical_risk_indicators : List Str :=
  ["unlimited liability".toList, "personal guarantee".toList, "immediate termination".toList]

/-- High indicator vocabulary of `_calculate_risk_level`. -/
def high_risk_indicators : List Str :=
  ["unlimited".toList, "immediate".toList, "no cure".toList, "personal guarantee".toList,
   "joint and several".toList, "liquidated damages".toList]

/-- Medium severity words of `_calculate_risk_level`. -/
def medium_severity_words : List Str :=
  ["penalty".toList, "forfeit".toList, "breach".toList]

/-- `EnhancedRiskDetector._calculate_risk_level`. -/
def calculate_risk_level (pat context : Str) : RiskLevel :=
  let patternLower := lowerStr pat
  let contextLower := lowerStr context
  if critical_risk_indicators.any
      (fun ind => isSub ind patternLower || isSub ind contextLower) then .critical
  else if high_risk_indicators.any
      (fun ind => isSub ind patternLower || isSub ind contextLower) then .high
  else if medium_severity_words.any (fun w => isSub w patternLower) then .medium
  else .low

/-- `EnhancedRiskDetector.detect_missing_clauses`. -/
def detect_missing_clauses (text : Str) : List Str :=
  let textLower := lowerStr text
  standard_clauses.filterMap (fun p =>
    if p.2.any (fun kw => isSub kw textLower) then none
    else some (pyTitle (underscoreToSpace p.1)))

/-- The `risk_weights` table of `calculate_overall_risk_score`. -/
def risk_weights : RiskLevel → ℚ
  | .low => 1
  | .medium => 5/2
  | .high => 4
  | .critical => 5

/-- The score-to-level threshold mapping at the end of `calculate_overall_risk_score`. -/
def riskLevelOfScore (s : ℚ) : RiskLevel :=
  if 8 ≤ s then .critical
  else if 6 ≤ s then .high
  else if 4 ≤ s then .medium
  else .low

/-- `EnhancedRiskDetector.calculate_overall_risk_score`. -/
def calculate_overall_risk_score (risk_factors : List RiskFactor)
    (missing_clauses : List Str) : ℚ × RiskLevel :=
  if risk_factors.isEmpty && missing_clauses.isEmpty then (2, .low)
  else
    let score := (risk_factors.map (fun f => risk_weights f.level * f.confidence)).sum
      + (missing_clauses.length : ℚ) * (1/2)
    let max_possible := (risk_factors.length : ℚ) * 5 + (missing_clauses.length : ℚ) * (1/2)
    let normalized := if 0 < max_possible then min 10 (score / max_possible * 10) else 1
    (normalized, riskLevelOfScore normalized)

/-- `EnhancedRiskDetector._calculate_confidence`. -/
def calculate_confidence (risk_factors : List RiskFactor) : ℚ :=
  if risk_factors.isEmpty then 4/5
  else min (19/20)
    ((risk_factors.map (fun f => f.confidence)).sum / (risk_factors.length : ℚ))

/-- A critical-severity factor exactly as `analyze_semantic_risks` builds one
(the detector assigns confidence `0.85` to every factor). -/
def sampleCriticalFactor : RiskFactor :=
  { text := "unlimited liability".toList
    category := .liability
    level := .critical
    confidence := 17/20
    explanation := "Unlimited liability exposes parties to potentially catastrophic financial losses without caps or limits.".toList
    clause_context := "The supplier accepts unlimited liability.".toList }

/-! ## A backtracking regular-expression matcher

Python `re` usage in `modules/qa_engine.py` is embedded through an explicit
syntax tree and an executable backtracking matcher.  Alternation prefers the
left branch, `star` is greedy and `starl` lazy, matching Python's preference
order, so the head of the result list is the match `re` would report.  The
matcher is fuelled; every recursive call strictly decreases the lexicographic
measure (remaining text length, regex size), so the supplied fuel
`(length + 1) * (size + 1) + 1` can never be exhausted. -/

/-- Regex syntax: the constructs used by the QA engine's patterns.
`grp` is the (single) capturing group, `bnd` is the word boundary `\b`. -/
inductive Regex where
  | eps
  | cls (f : Char → Bool)
  | cat (r1 r2 : Regex)
  | alt (r1 r2 : Regex)
  | star (r : Regex)
  | starl (r : Regex)
  | grp (r : Regex)
  | bnd

/-- Python `\w`: letters, digits, underscore. -/
def isWordChar (c : Char) : Bool := c.isAlphanum || c == '_'

/-- Whether a word boundary `\b` sits between the two (optional) characters. -/
def boundaryOk (prev next : Option Char) : Bool :=
  (match prev with | none => false | some c => isWordChar c) !=
  (match next with | none => false | some c => isWordChar c)

/-- Size of a regex, used to compute sufficient fuel. -/
def regexSize : Regex → Nat
  | .eps => 1
  | .cls _ => 1
  | .cat r1 r2 => regexSize r1 + regexSize r2 + 1
  | .alt r1 r2 => regexSize r1 + regexSize r2 + 1
  | .star r => regexSize r + 1
  | .starl r => regexSize r + 1
  | .grp r => regexSize r + 1
  | .bnd => 1

/-- All ways a regex can match a prefix of `s`.  Each alternative records the
character preceding the remaining text (for `\b`), the remaining text, and the
capture of group 1 if it participated.  Results are in Python's backtracking
preference order. -/
def mtch : Nat → Regex → Option Char → Str → Option Str →
    List (Option Char × Str × Option Str)
  | 0, _, _, _, _ => []
  | n + 1, r, p, s, cap =>
    match r with
    | .eps => [(p, s, cap)]
    | .cls f =>
      match s with
      | [] => []
      | c :: rest => if f c then [(some c, rest, cap)] else []
    | .bnd => if boundaryOk p s.head? then [(p, s, cap)] else []
    | .grp r1 =>
      (mtch n r1 p s cap).map
        (fun t => (t.1, t.2.1, some (s.take (s.length - t.2.1.length))))
    | .cat r1 r2 =>
      (mtch n r1 p s cap).flatMap (fun t => mtch n r2 t.1 t.2.1 t.2.2)
    | .alt r1 r2 => mtch n r1 p s cap ++ mtch n r2 p s cap
    | .star r1 =>
      ((mtch n r1 p s cap).flatMap (fun t =>
        if t.2.1.length < s.length then mtch n (.star r1) t.1 t.2.1 t.2.2 else []))
      ++ [(p, s, cap)]
    | .starl r1 =>
      (p, s, cap) :: ((mtch n r1 p s cap).flatMap (fun t =>
        if t.2.1.length < s.length then mtch n (.starl r1) t.1 t.2.1 t.2.2 else []))

/-- Python's match at a fixed position: the preferred (first) way `r` matches a
prefix of `s`, returning the consumed text and the group-1 capture. -/
def findAt (r : Regex) (prev : Option Char) (s : Str) : Option (Str × Option Str) :=
  match (mtch ((s.length + 1) * (regexSize r + 1) + 1) r prev s none).head? with
  | none => none
  | some t => some (s.take (s.length - t.2.1.length), t.2.2)

/-- Worker for `pyFinditer`: scan left to right, at each position take the
preferred match and continue after it (empty matches advance one character,
as `re.finditer` does). -/
def finditerAux : Nat → Regex → Str → Option Char → Nat → List (Nat × Str × Option Str)
  | 0, _, _, _, _ => []
  | fuel + 1, r, s, prev, pos =>
    match findAt r prev s with
    | some (m, cap) =>
      if m.isEmpty then
        match s with
        | [] => [(pos, m, cap)]
        | c :: t => (pos, m, cap) :: finditerAux fuel r t (some c) (pos + 1)
      else
        (pos, m, cap) :: finditerAux fuel r (s.drop m.length) (some (m.getLastD ' '))
          (pos + m.length)
    | none =>
      match s with
      | [] => []
      | c :: t => finditerAux fuel r t (some c) (pos + 1)

/-- Python `re.finditer(r, s)`: each element is (start position, matched text,
group-1 capture). -/
def pyFinditer (r : Regex) (s : Str) : List (Nat × Str × Option Str) :=
  finditerAux (s.length + 1) r s none 0

/-! Combinators used to transcribe the pattern strings. -/

/-- A case-sensitive literal character. -/
def rchar (c : Char) : Regex := .cls (fun x => x == c)

/-- A literal character under `re.IGNORECASE`. -/
def ichar (c : Char) : Regex := .cls (fun x => x.toLower == c.toLower)

/-- A case-sensitive literal string. -/
def rstr (s : String) : Regex := (s.toList.map rchar).foldr .cat .eps

/-- A literal string under `re.IGNORECASE`. -/
def istr (s : String) : Regex := (s.toList.map ichar).foldr .cat .eps

/-- Concatenation of a list of regexes. -/
def rcat (l : List Regex) : Regex := l.foldr .cat .eps

/-- Alternation of a list of regexes, preferring earlier entries. -/
def ralt : List Regex → Regex
  | [] => .cls (fun _ => false)
  | [r] => r
  | r :: rs => .alt r (ralt rs)

/-- Greedy `r+`. -/
def plus (r : Regex) : Regex := .cat r (.star r)

/-- Greedy `r?`. -/
def opt (r : Regex) : Regex := .alt r .eps

/-- `\d`. -/
def digit : Regex := .cls Char.isDigit

/-- `\s`. -/
def wsp : Regex := .cls isPySpace

/-- `\s*`. -/
def wsS : Regex := .star wsp

/-- `\s+`. -/
def wsP : Regex := plus wsp

/-- `.` (any character but newline). -/
def anyc : Regex := .cls (fun c => c != '\n')

/-- `.*?` (lazy). -/
def dotStarL : Regex := .starl anyc

/-- `\d+`. -/
def digitsP : Regex := plus digit

/-- `[\d,]+`. -/
def digComma : Regex := plus (.cls (fun c => c.isDigit || c == ','))

/-! ## QA engine patterns (`LegalQAEngine.load_legal_patterns`) -/

/-- `\$[\d,]+(?:\.\d{2})?`. -/
def usd1 : Regex := rcat [rchar '$', digComma, opt (rcat [rchar '.', digit, digit])]

/-- `USD\s*[\d,]+`. -/
def usd2 : Regex := rcat [istr "USD", wsS, digComma]

/-- `dollars?`. -/
def usd3 : Regex := rcat [istr "dollar", opt (ichar 's')]

/-- `CAD\s*[\d,]+`. -/
def cad1 : Regex := rcat [istr "CAD", wsS, digComma]

/-- `C\$[\d,]+`. -/
def cad2 : Regex := rcat [ichar 'C', rchar '$', digComma]

/-- `Canadian\s+dollars?`. -/
def cad3 : Regex := rcat [istr "Canadian", wsP, istr "dollar", opt (ichar 's')]

/-- `£[\d,]+(?:\.\d{2})?`. -/
def gbp1 : Regex := rcat [rchar '£', digComma, opt (rcat [rchar '.', digit, digit])]

/-- `GBP\s*[\d,]+`. -/
def gbp2 : Regex := rcat [istr "GBP", wsS, digComma]

/-- `pounds?`. -/
def gbp3 : Regex := rcat [istr "pound", opt (ichar 's')]

/-- `₹[\d,]+(?:\.\d{2})?`. -/
def inr1 : Regex := rcat [rchar '₹', digComma, opt (rcat [rchar '.', digit, digit])]

/-- `Rs\.?\s*[\d,]+`. -/
def inr2 : Regex := rcat [istr "Rs", opt (rchar '.'), wsS, digComma]

/-- `INR\s*[\d,]+`. -/
def inr3 : Regex := rcat [istr "INR", wsS, digComma]

/-- `rupees?`. -/
def inr4 : Regex := rcat [istr "rupee", opt (ichar 's')]

/-- `[\d,]+\s*(?:crores?|lakhs?)`. -/
def inr5 : Regex :=
  rcat [digComma, wsS,
    .alt (rcat [istr "crore", opt (ichar 's')]) (rcat [istr "lakh", opt (ichar 's')])]

/-- `€[\d,]+(?:\.\d{2})?`. -/
def eur1 : Regex := rcat [rchar '€', digComma, opt (rcat [rchar '.', digit, digit])]

/-- `EUR\s*[\d,]+`. -/
def eur2 : Regex := rcat [istr "EUR", wsS, digComma]

/-- `euros?`. -/
def eur3 : Regex := rcat [istr "euro", opt (ichar 's')]

/-- The `currency_patterns` dict: keys are currency codes, in insertion order. -/
def currency_patterns : List (Str × List Regex) :=
  [("USD".toList, [usd1, usd2, usd3]),
   ("CAD".toList, [cad1, cad2, cad3]),
   ("GBP".toList, [gbp1, gbp2, gbp3]),
   ("INR".toList, [inr1, inr2, inr3, inr4, inr5]),
   ("EUR".toList, [eur1, eur2, eur3])]

/-- `[A-Z]`. -/
def upperAl : Regex := .cls (fun c => 'A' ≤ c && c ≤ 'Z')

/-- `[a-zA-Z\s&]`. -/
def alphaWsAmp : Regex :=
  .cls (fun c => ('a' ≤ c && c ≤ 'z') || ('A' ≤ c && c ≤ 'Z') || isPySpace c || c == '&')

/-- `[a-zA-Z]`. -/
def alphaCls : Regex := .cls (fun c => ('a' ≤ c && c ≤ 'z') || ('A' ≤ c && c ≤ 'Z'))

/-- `[A-Za-z\s]+` (as in the jurisdiction capture groups). -/
def alphaWsP : Regex :=
  plus (.cls (fun c => ('A' ≤ c && c ≤ 'Z') || ('a' ≤ c && c ≤ 'z') || isPySpace c))

/-- First `companies` pattern:
`\b[A-Z][a-zA-Z\s&]+(?:Inc|LLC|Corp|Corporation|Company|Ltd|Limited|Pvt\.?\s*Ltd\.?|LLP)\b`. -/
def company1 : Regex :=
  rcat [.bnd, upperAl, plus alphaWsAmp,
    ralt [rstr "Inc", rstr "LLC", rstr "Corp", rstr "Corporation", rstr "Company",
      rstr "Ltd", rstr "Limited",
      rcat [rstr "Pvt", opt (rchar '.'), wsS, rstr "Ltd", opt (rchar '.')], rstr "LLP"],
    .bnd]

/-- Second `companies` pattern: `\b[A-Z][a-zA-Z\s&]+(?:GmbH|AG|SA|SAS|BV|AB|AS)\b`. -/
def company2 : Regex :=
  rcat [.bnd, upperAl, plus alphaWsAmp,
    ralt [rstr "GmbH", rstr "AG", rstr "SA", rstr "SAS", rstr "BV", rstr "AB", rstr "AS"],
    .bnd]

/-- First `people` pattern:
`\b(?:Mr\.?|Mrs\.?|Ms\.?|Dr\.?)\s+[A-Z][a-zA-Z]+(?:\s+[A-Z][a-zA-Z]+)*\b`. -/
def people1 : Regex :=
  rcat [.bnd,
    ralt [rcat [rstr "Mr", opt (rchar '.')], rcat [rstr "Mrs", opt (rchar '.')],
      rcat [rstr "Ms", opt (rchar '.')], rcat [rstr "Dr", opt (rchar '.')]],
    wsP, upperAl, plus alphaCls, .star (rcat [wsP, upperAl, plus alphaCls]), .bnd]

/-- Second `people` pattern: `\b[A-Z][a-zA-Z]+\s+[A-Z][a-zA-Z]+(?:\s+[A-Z][a-zA-Z]+)*\b`. -/
def people2 : Regex :=
  rcat [.bnd, upperAl, plus alphaCls, wsP, upperAl, plus alphaCls,
    .star (rcat [wsP, upperAl, plus alphaCls]), .bnd]

/-- `(?:January|...|December)`. -/
def monthName : Regex :=
  ralt (["January", "February", "March", "April", "May", "June", "July", "August",
    "September", "October", "November", "December"].map istr)

/-- `(?:st|nd|rd|th)?`. -/
def ordSuffix : Regex := opt (ralt [istr "st", istr "nd", istr "rd", istr "th"])

/-- `\d{1,2}` (greedy). -/
def d12 : Regex := rcat [digit, opt digit]

/-- `\d{2,4}` (greedy). -/
def d24 : Regex := rcat [digit, digit, opt (rcat [digit, opt digit])]

/-- `\d{4}`. -/
def d4 : Regex := rcat [digit, digit, digit, digit]

/-- The date separator class: slash or dash. -/
def dateSep : Regex := .cls (fun c => c == '/' || c == '-')

/-- `\b\d{1,2}`, separator, `\d{1,2}`, separator, `\d{2,4}\b` (first date pattern). -/
def date1 : Regex := rcat [.bnd, d12, dateSep, d12, dateSep, d24, .bnd]

/-- `\b\d{1,2}(?:st|nd|rd|th)?\s+(?:January|...)\s*,?\s*\d{4}\b`. -/
def date2 : Regex :=
  rcat [.bnd, d12, ordSuffix, wsP, monthName, wsS, opt (rchar ','), wsS, d4, .bnd]

/-- `\b(?:January|...)\s+\d{1,2}(?:st|nd|rd|th)?\s*,?\s*\d{4}\b`. -/
def date3 : Regex :=
  rcat [.bnd, monthName, wsP, d12, ordSuffix, wsS, opt (rchar ','), wsS, d4, .bnd]

/-- The `date_patterns` list. -/
def date_patterns : List Regex := [date1, date2, date3]

/-- `courts?\s+(?:of|in|at)\s+([A-Za-z\s]+)(?:\s+shall\s+have\s+jurisdiction|jurisdiction)`. -/
def jur1 : Regex :=
  rcat [istr "court", opt (ichar 's'), wsP, ralt [istr "of", istr "in", istr "at"], wsP,
    .grp alphaWsP,
    .alt (rcat [wsP, istr "shall", wsP, istr "have", wsP, istr "jurisdiction"])
      (istr "jurisdiction")]

/-- `governed\s+by\s+(?:the\s+)?laws?\s+of\s+([A-Za-z\s]+)`. -/
def jur2 : Regex :=
  rcat [istr "governed", wsP, istr "by", wsP, opt (rcat [istr "the", wsP]),
    istr "law", opt (ichar 's'), wsP, istr "of", wsP, .grp alphaWsP]

/-- `subject\s+to\s+(?:the\s+)?jurisdiction\s+of\s+([A-Za-z\s]+)`. -/
def jur3 : Regex :=
  rcat [istr "subject", wsP, istr "to", wsP, opt (rcat [istr "the", wsP]),
    istr "jurisdiction", wsP, istr "of", wsP, .grp alphaWsP]

/-- `exclusive\s+jurisdiction\s+of\s+([A-Za-z\s]+)`. -/
def jur4 : Regex :=
  rcat [istr "exclusive", wsP, istr "jurisdiction", wsP, istr "of", wsP, .grp alphaWsP]

/-- `courts?\s+of\s+([A-Za-z\s]+)\s+shall\s+have\s+jurisdiction`. -/
def jur5 : Regex :=
  rcat [istr "court", opt (ichar 's'), wsP, istr "of", wsP, .grp alphaWsP, wsP,
    istr "shall", wsP, istr "have", wsP, istr "jurisdiction"]

/-- The `jurisdiction_patterns` list. -/
def jurisdiction_patterns : List Regex := [jur1, jur2, jur3, jur4, jur5]

/-- `(?:days?|months?|years?)`. -/
def timeUnitDMY : Regex :=
  ralt [rcat [istr "day", opt (ichar 's')], rcat [istr "month", opt (ichar 's')],
    rcat [istr "year", opt (ichar 's')]]

/-- `(\d+\s+(?:days?|months?|years?))`. -/
def durDMY : Regex := .grp (rcat [digitsP, wsP, timeUnitDMY])

/-- `(?:terminate|termination).*?(?:upon|after|within)\s+(\d+\s+(?:days?|months?|years?))`. -/
def term1 : Regex :=
  rcat [.alt (istr "terminate") (istr "termination"), dotStarL,
    ralt [istr "upon", istr "after", istr "within"], wsP, durDMY]

/-- `(?:notice\s+of\s+)?termination.*?(\d+\s+(?:days?|months?|years?))`. -/
def term2 : Regex :=
  rcat [opt (rcat [istr "notice", wsP, istr "of", wsP]), istr "termination", dotStarL, durDMY]

/-- `either\s+party\s+may\s+terminate.*?(\d+\s+(?:days?|months?|years?))`. -/
def term3 : Regex :=
  rcat [istr "either", wsP, istr "party", wsP, istr "may", wsP, istr "terminate",
    dotStarL, durDMY]

/-- `contract\s+(?:shall\s+)?terminate.*?(\d+\s+(?:days?|months?|years?))`. -/
def term4 : Regex :=
  rcat [istr "contract", wsP, opt (rcat [istr "shall", wsP]), istr "terminate",
    dotStarL, durDMY]

/-- The `termination_patterns` list. -/
def termination_patterns : List Regex := [term1, term2, term3, term4]

/-- `(?:days?|months?)`. -/
def timeUnitDM : Regex :=
  .alt (rcat [istr "day", opt (ichar 's')]) (rcat [istr "month", opt (ichar 's')])

/-- `(\d+\s+(?:days?|months?))`. -/
def durDM : Regex := .grp (rcat [digitsP, wsP, timeUnitDM])

/-- `payment.*?(?:due|payable).*?(\d+\s+(?:days?|months?))`. -/
def pay1 : Regex :=
  rcat [istr "payment", dotStarL, .alt (istr "due") (istr "payable"), dotStarL, durDM]

/-- `invoice.*?(?:due|payable).*?(\d+\s+(?:days?|months?))`. -/
def pay2 : Regex :=
  rcat [istr "invoice", dotStarL, .alt (istr "due") (istr "payable"), dotStarL, durDM]

/-- `(?:net\s+)?(\d+)\s+days?`. -/
def pay3 : Regex :=
  rcat [opt (rcat [istr "net", wsP]), .grp digitsP, wsP, istr "day", opt (ichar 's')]

/-- `payment\s+terms?.*?(\d+\s+(?:days?|months?))`. -/
def pay4 : Regex :=
  rcat [istr "payment", wsP, istr "term", opt (ichar 's'), dotStarL, durDM]

/-- The `payment_patterns` list. -/
def payment_patterns : List Regex := [pay1, pay2, pay3, pay4]

/-! ## QA engine extractors (`modules/qa_engine.py`) -/

/-- The `QAResult` dataclass (`sources=None` becomes the empty list in
`__post_init__`). -/
structure QAResult where
  question : Str
  answer : Str
  confidence : ℚ
  context : Str := []
  sources : List Str := []

/-- The match loop `for pattern in patterns: for match in re.finditer(...)`:
every match of every pattern, pattern-major. -/
def findAllWithPos (patterns : List Regex) (text : Str) : List (Nat × Str × Option Str) :=
  patterns.flatMap (fun r => pyFinditer r text)

/-- The context excerpt `text[max(0, start-w) : min(len(text), end+w)].strip()`. -/
def contextWindow (text : Str) (start len w : Nat) : Str :=
  pyStrip ((text.take (start + len + w)).drop (start - w))

/-- `", ".join` on the matched values. -/
def joinComma (l : List Str) : Str := List.intercalate ", ".toList l

/-- Decimal rendering of a count (for the "and N more" overflow suffix). -/
def natStr (n : Nat) : Str := (Nat.repr n).toList

/-- Negative answer of `_answer_money_question`. -/
def no_money_answer : Str := "No monetary amounts found in the document.".toList

/-- `LegalQAEngine._answer_money_question`. -/
def answer_money_question (text question country_preference : Str) : QAResult :=
  let patterns :=
    match currency_patterns.find? (fun p => p.1 == country_preference) with
    | some p => p.2
    | none => currency_patterns.flatMap (fun p => p.2)
  let found := findAllWithPos patterns text
  let money_matches := found.map (fun t => t.2.1)
  let contexts := found.map (fun t => contextWindow text t.1 t.2.1.length 100)
  if !money_matches.isEmpty then
    let unique_amounts := money_matches.eraseDups
    let answer := "Found monetary amounts: ".toList ++ joinComma (unique_amounts.take 5) ++
      (if 5 < unique_amounts.length then
        " and ".toList ++ natStr (unique_amounts.length - 5) ++ " more".toList else [])
    { question := question, answer := answer, confidence := 9/10,
      context := contexts.headD [], sources := unique_amounts }
  else
    { question := question, answer := no_money_answer, confidence := 3/10 }

/-- The person-word trigger inside `_answer_party_question`. -/
def person_words : List Str :=
  ["person".toList, "individual".toList, "signatory".toList, "representative".toList]

/-- Negative answer of `_answer_party_question`. -/
def no_party_answer : Str :=
  "No clear parties or organizations identified in the document.".toList

/-- `LegalQAEngine._answer_party_question`. -/
def answer_party_question (text question : Str) : QAResult :=
  let companiesFound := findAllWithPos [company1, company2] text
  let companies := companiesFound.map (fun t => pyStrip t.2.1)
  let contexts := companiesFound.map (fun t => contextWindow text t.1 t.2.1.length 50)
  let people :=
    if person_words.any (fun w => isSub w (lowerStr question)) then
      (findAllWithPos [people1, people2] text).map (fun t => pyStrip t.2.1)
    else []
  let all_parties := (companies ++ people).eraseDups
  if !all_parties.isEmpty then
    { question := question,
      answer := "Found parties: ".toList ++ joinComma (all_parties.take 5) ++
        (if 5 < all_parties.length then
          " and ".toList ++ natStr (all_parties.length - 5) ++ " more".toList else []),
      confidence := 17/20, context := contexts.headD [], sources := all_parties }
  else
    { question := question, answer := no_party_answer, confidence := 3/10 }

/-- Negative answer of `_answer_date_question`. -/
def no_date_answer : Str := "No specific dates found in the document.".toList

/-- `LegalQAEngine._answer_date_question`. -/
def answer_date_question (text question : Str) : QAResult :=
  let found := findAllWithPos date_patterns text
  let dates := found.map (fun t => t.2.1)
  let contexts := found.map (fun t => contextWindow text t.1 t.2.1.length 80)
  if !dates.isEmpty then
    let unique_dates := dates.eraseDups
    { question := question,
      answer := "Found important dates: ".toList ++ joinComma (unique_dates.take 5) ++
        (if 5 < unique_dates.length then
          " and ".toList ++ natStr (unique_dates.length - 5) ++ " more".toList else []),
      confidence := 4/5, context := contexts.headD [], sources := unique_dates }
  else
    { question := question, answer := no_date_answer, confidence := 3/10 }

/-- Negative answer of `_answer_jurisdiction_question`. -/
def no_jurisdiction_answer : Str :=
  "No clear jurisdiction or governing law clauses found.".toList

/-- `LegalQAEngine._answer_jurisdiction_question`; each pattern has a capturing
group, so `match.group(1)` is taken (full match if the group is absent). -/
def answer_jurisdiction_question (text question : Str) : QAResult :=
  let found := findAllWithPos jurisdiction_patterns text
  let jurisdictions := found.map (fun t => pyStrip (t.2.2.getD t.2.1))
  let contexts := found.map (fun t => contextWindow text t.1 t.2.1.length 50)
  if !jurisdictions.isEmpty then
    let unique_jurisdictions := jurisdictions.eraseDups
    { question := question,
      answer := "Found jurisdiction/governing law: ".toList ++ joinComma unique_jurisdictions,
      confidence := 9/10, context := contexts.headD [], sources := unique_jurisdictions }
  else
    { question := question, answer := no_jurisdiction_answer, confidence := 3/10 }

/-- Negative answer of `_answer_termination_question`. -/
def no_termination_answer : Str := "No specific termination clauses found.".toList

/-- `LegalQAEngine._answer_termination_question`. -/
def answer_termination_question (text question : Str) : QAResult :=
  let found := findAllWithPos termination_patterns text
  let termination_terms := found.map (fun t => pyStrip (t.2.2.getD t.2.1))
  let contexts := found.map (fun t => contextWindow text t.1 t.2.1.length 100)
  if !termination_terms.isEmpty then
    let unique_terms := termination_terms.eraseDups
    { question := question,
      answer := "Found termination terms: ".toList ++ joinComma unique_terms,
      confidence := 17/20, context := contexts.headD [], sources := unique_terms }
  else
    { question := question, answer := no_termination_answer, confidence := 3/10 }

/-- Negative answer of `_answer_payment_question`. -/
def no_payment_answer : Str := "No specific payment terms found.".toList

/-- `LegalQAEngine._answer_payment_question`. -/
def answer_payment_question (text question : Str) : QAResult :=
  let found := findAllWithPos payment_patterns text
  let payment_terms := found.map (fun t => pyStrip (t.2.2.getD t.2.1))
  let contexts := found.map (fun t => contextWindow text t.1 t.2.1.length 100)
  if !payment_terms.isEmpty then
    let unique_terms := payment_terms.eraseDups
    { question := question,
      answer := "Found payment terms: ".toList ++ joinComma unique_terms,
      confidence := 17/20, context := contexts.headD [], sources := unique_terms }
  else
    { question := question, answer := no_payment_answer, confidence := 3/10 }

/-- Negative answer of `_answer_general_question`. -/
def general_not_found : Str :=
  "I couldn't find specific information to answer that question. Please try rephrasing or ask about parties, amounts, dates, or jurisdiction.".toList

/-- `re.findall(r'\b\w+\b', s)`: the maximal runs of word characters. -/
def splitWordsAux : Str → Str → List Str
  | acc, [] => if acc.isEmpty then [] else [acc.reverse]
  | acc, c :: t =>
    if isWordChar c then splitWordsAux (c :: acc) t
    else if acc.isEmpty then splitWordsAux [] t
    else acc.reverse :: splitWordsAux [] t

/-- `re.findall(r'\b\w+\b', s)`. -/
def splitWords (s : Str) : List Str := splitWordsAux [] s

/-- Sentence-ending punctuation of the general extractor. -/
def isPunct (c : Char) : Bool := c == '.' || c == '!' || c == '?'

/-- Whether a string starts with sentence punctuation. -/
def headIsPunct : Str → Bool
  | [] => false
  | c :: _ => isPunct c

/-- `re.split(r'[.!?]+', s)`: split on maximal punctuation runs. -/
def splitPunct : Str → List Str
  | [] => [[]]
  | c :: t =>
    if isPunct c then
      (if headIsPunct t then splitPunct t else [] :: splitPunct t)
    else
      match splitPunct t with
      | [] => [[c]]
      | g :: gs => (c :: g) :: gs

/-- `LegalQAEngine._answer_general_question`. -/
def answer_general_question (text question : Str) : QAResult :=
  let question_words := splitWords (lowerStr question)
  let sentences := splitPunct text
  let relevant_sentences :=
    (sentences.filter (fun s =>
      2 ≤ (question_words.filter
        (fun w => isSub w (lowerStr s) && 3 < w.length)).length)).map pyStrip
  match relevant_sentences with
  | [] =>
    { question := question, answer := general_not_found, confidence := 1/5 }
  | s0 :: rest =>
    let best_sentence := rest.foldl (fun a b => if a.length < b.length then b else a) s0
    let answer :=
      if 300 < best_sentence.length then best_sentence.take 300 ++ "...".toList
      else best_sentence
    { question := question, answer := answer, confidence := 3/5,
      context := best_sentence, sources := [best_sentence] }

/-! ## QA engine routing (`LegalQAEngine.answer_question`) -/

/-- Money keywords of routing rule 1. -/
def money_keywords : List Str :=
  ["value".toList, "amount".toList, "price".toList, "cost".toList, "money".toList,
   "payment".toList]

/-- Party keywords of routing rule 2. -/
def party_keywords : List Str :=
  ["party".toList, "parties".toList, "who".toList, "company".toList, "organization".toList]

/-- Date keywords of routing rule 3. -/
def date_keywords : List Str :=
  ["date".toList, "when".toList, "expire".toList, "expiry".toList, "term".toList,
   "duration".toList]

/-- Jurisdiction keywords of routing rule 4. -/
def jurisdiction_keywords : List Str :=
  ["jurisdiction".toList, "court".toList, "law".toList, "governing".toList, "legal".toList]

/-- Termination keywords of routing rule 5. -/
def termination_keywords : List Str :=
  ["terminate".toList, "termination".toList, "end".toList, "cancel".toList]

/-- Payment keywords of routing rule 6. -/
def payment_keywords : List Str :=
  ["payment".toList, "pay".toList, "invoice".toList, "billing".toList]

/-- The routing target of a question. -/
inductive Route where
  | money
  | party
  | date
  | jurisdiction
  | termination
  | payment
  | general
deriving DecidableEq

/-- The first-match-wins keyword cascade of `answer_question`, as a function
from the question to the chosen extractor. -/
def routeQuestion (question : Str) : Route :=
  let question_lower := lowerStr question
  if money_keywords.any (fun w => isSub w question_lower) then .money
  else if party_keywords.any (fun w => isSub w question_lower) then .party
  else if date_keywords.any (fun w => isSub w question_lower) then .date
  else if jurisdiction_keywords.any (fun w => isSub w question_lower) then .jurisdiction
  else if termination_keywords.any (fun w => isSub w question_lower) then .termination
  else if payment_keywords.any (fun w => isSub w question_lower) then .payment
  else .general

/-- `LegalQAEngine.answer_question`: the if/elif dispatch over the lowercased
question. -/
def answer_question (text question country_preference : Str) : QAResult :=
  let question_lower := lowerStr question
  if money_keywords.any (fun w => isSub w question_lower) then
    answer_money_question text question country_preference
  else if party_keywords.any (fun w => isSub w question_lower) then
    answer_party_question text question
  else if date_keywords.any (fun w => isSub w question_lower) then
    answer_date_question text question
  else if jurisdiction_keywords.any (fun w => isSub w question_lower) then
    answer_jurisdiction_question text question
  else if termination_keywords.any (fun w => isSub w question_lower) then
    answer_termination_question text question
  else if payment_keywords.any (fun w => isSub w question_lower) then
    answer_payment_question text question
  else
    answer_general_question text question

/-- The state set up by `LegalQAEngine.__init__`: `self.document_text = ""`,
`self.entities = {}`. -/
structure LegalQAEngineState where
  document_text : Str
  entities : List (Str × List Str)

/-- A freshly constructed engine (`LegalQAEngine.__init__`). -/
def engineInit : LegalQAEngineState := { document_text := [], entities := [] }

/-! ## Helper lemmas -/

/-- Every severity weight is at most the critical weight 5. -/
theorem risk_weights_le_five (l : RiskLevel) : risk_weights l ≤ 5 := by
  cases l <;> norm_num [risk_weights]

/-- Every severity weight is positive. -/
theorem risk_weights_pos (l : RiskLevel) : 0 < risk_weights l := by
  cases l <;> norm_num [risk_weights]

/-- With confidences in `[0, 1]`, the accumulated factor score is at most
`5 * count`. -/
theorem factor_sum_le (fs : List RiskFactor)
    (h : ∀ f ∈ fs, 0 ≤ f.confidence ∧ f.confidence ≤ 1) :
    (fs.map (fun f => risk_weights f.level * f.confidence)).sum ≤ (fs.length : ℚ) * 5 := by
  have hb := List.sum_le_card_nsmul (fs.map (fun f => risk_weights f.level * f.confidence)) 5 ?_
  · rw [List.length_map, nsmul_eq_mul] at hb
    simpa [mul_comm] using hb
  · intro x hx
    simp only [List.mem_map] at hx
    obtain ⟨f, hf, rfl⟩ := hx
    calc risk_weights f.level * f.confidence
        ≤ 5 * f.confidence := mul_le_mul_of_nonneg_right (risk_weights_le_five _) (h f hf).1
      _ ≤ 5 * 1 := mul_le_mul_of_nonneg_left (h f hf).2 (by norm_num)
      _ = 5 := by norm_num

/-- With every confidence equal to the detector's `0.85`, the accumulated
factor score is at most `17/4 * count`. -/
theorem factor_sum_le_detector (fs : List RiskFactor)
    (h : ∀ f ∈ fs, f.confidence = 17/20) :
    (fs.map (fun f => risk_weights f.level * f.confidence)).sum ≤ (fs.length : ℚ) * (17/4) := by
  have hb := List.sum_le_card_nsmul (fs.map (fun f => risk_weights f.level * f.confidence))
    (17/4) ?_
  · rw [List.length_map, nsmul_eq_mul] at hb
    simpa [mul_comm] using hb
  · intro x hx
    simp only [List.mem_map] at hx
    obtain ⟨f, hf, rfl⟩ := hx
    rw [h f hf]
    have := risk_weights_le_five f.level
    linarith

/-- With nonnegative confidences, the accumulated factor score is nonnegative. -/
theorem factor_sum_nonneg (fs : List RiskFactor)
    (h : ∀ f ∈ fs, 0 ≤ f.confidence) :
    0 ≤ (fs.map (fun f => risk_weights f.level * f.confidence)).sum := by
  apply List.sum_nonneg
  intro x hx
  simp only [List.mem_map] at hx
  obtain ⟨f, hf, rfl⟩ := hx
  exact mul_nonneg (le_of_lt (risk_weights_pos _)) (h f hf)

/-! ## C4: clean-document floor -/

/-- C4: a document with zero detected risk factors and zero missing clauses
yields `overall_score = 2.0` and `risk_level = low` (not 0). -/
theorem c4_clean_document_floor :
    calculate_overall_risk_score [] [] = (2, RiskLevel.low) := rfl

/-! ## C5: threshold boundaries -/

/-- C5: the risk-level mapping is boundary-inclusive on the upper side:
`s ≥ 8` is critical, `6 ≤ s < 8` is high, `4 ≤ s < 6` is medium, `s < 4` is
low; in particular 8.0, 6.0, 4.0 map to critical, high, medium. -/
theorem c5_threshold_boundaries (s : ℚ) :
    (8 ≤ s → riskLevelOfScore s = .critical) ∧
    (6 ≤ s → s < 8 → riskLevelOfScore s = .high) ∧
    (4 ≤ s → s < 6 → riskLevelOfScore s = .medium) ∧
    (s < 4 → riskLevelOfScore s = .low) := by
  refine ⟨fun h => ?_, fun h1 h2 => ?_, fun h1 h2 => ?_, fun h => ?_⟩ <;>
    · unfold riskLevelOfScore
      split_ifs <;> first | rfl | linarith

/-- Witness for C5 at the boundary scores 8, 6, 4 and at 2. -/
theorem c5_threshold_boundaries_witness :
    riskLevelOfScore 8 = .critical ∧ riskLevelOfScore 6 = .high ∧
    riskLevelOfScore 4 = .medium ∧ riskLevelOfScore 2 = .low :=
  ⟨(c5_threshold_boundaries 8).1 (by norm_num),
   (c5_threshold_boundaries 6).2.1 (by norm_num) (by norm_num),
   (c5_threshold_boundaries 4).2.2.1 (by norm_num) (by norm_num),
   (c5_threshold_boundaries 2).2.2.2 (by norm_num)⟩

/-! ## C3: missing clauses only -/

/-- C3: with no risk factors and at least one missing clause the accumulated
score `0.5 * k` equals the normalizer `0.5 * k`, so the overall score is
exactly 10.0 and the level critical, however many clauses are missing. -/
theorem c3_missing_only_is_critical (missing_clauses : List Str)
    (h : missing_clauses ≠ []) :
    calculate_overall_risk_score [] missing_clauses = (10, RiskLevel.critical) := by
  have hk : 0 < (missing_clauses.length : ℚ) := by
    exact_mod_cast List.length_pos.mpr h
  unfold calculate_overall_risk_score
  rw [if_neg (by simp [h])]
  have hx : (0 : ℚ) < (missing_clauses.length : ℚ) * (1/2) := by linarith
  simp only [List.map_nil, List.sum_nil, List.length_nil, Nat.cast_zero, zero_mul, zero_add]
  rw [if_pos hx, div_self (ne_of_gt hx)]
  norm_num [riskLevelOfScore]

/-- Witness for C3 with a single missing clause. -/
theorem c3_missing_only_is_critical_witness :
    calculate_overall_risk_score [] ["Force Majeure".toList] = (10, RiskLevel.critical) :=
  c3_missing_only_is_critical ["Force Majeure".toList] (by simp)

/-! ## C8: assessment confidence -/

/-- C8: the assessment confidence is 0.8 on an empty factor list and the
mean of the factor confidences capped at 0.95 otherwise. -/
theorem c8_assessment_confidence (risk_factors : List RiskFactor) :
    (risk_factors = [] → calculate_confidence risk_factors = 4/5) ∧
    (risk_factors ≠ [] → calculate_confidence risk_factors =
      min (19/20) ((risk_factors.map (fun f => f.confidence)).sum / (risk_factors.length : ℚ))) := by
  constructor
  · rintro rfl
    rfl
  · intro h
    unfold calculate_confidence
    rw [if_neg (by simpa using h)]

/-- Witness for C8 on the detector's sample factor and on the empty list. -/
theorem c8_assessment_confidence_witness :
    calculate_confidence [] = 4/5 ∧
    calculate_confidence [sampleCriticalFactor] =
      min (19/20) (([sampleCriticalFactor].map (fun f => f.confidence)).sum / 1) :=
  ⟨(c8_assessment_confidence []).1 rfl,
   by
    have := (c8_assessment_confidence [sampleCriticalFactor]).2 (by simp)
    simpa using this⟩

/-! ## C7: severity cascade -/

/-- C7: severity classification is a first-match-wins cascade: critical if the
lowercased pattern or sentence contains a critical indicator, else high on a
high indicator, else medium if the pattern contains a medium severity word,
else low. -/
theorem c7_severity_cascade (pat context : Str) :
    (critical_risk_indicators.any
        (fun ind => isSub ind (lowerStr pat) || isSub ind (lowerStr context)) = true →
      calculate_risk_level pat context = .critical) ∧
    (critical_risk_indicators.any
        (fun ind => isSub ind (lowerStr pat) || isSub ind (lowerStr context)) = false →
      high_risk_indicators.any
        (fun ind => isSub ind (lowerStr pat) || isSub ind (lowerStr context)) = true →
      calculate_risk_level pat context = .high) ∧
    (critical_risk_indicators.any
        (fun ind => isSub ind (lowerStr pat) || isSub ind (lowerStr context)) = false →
      high_risk_indicators.any
        (fun ind => isSub ind (lowerStr pat) || isSub ind (lowerStr context)) = false →
      medium_severity_words.any (fun w => isSub w (lowerStr pat)) = true →
      calculate_risk_level pat context = .medium) ∧
    (critical_risk_indicators.any
        (fun ind => isSub ind (lowerStr pat) || isSub ind (lowerStr context)) = false →
      high_risk_indicators.any
        (fun ind => isSub ind (lowerStr pat) || isSub ind (lowerStr context)) = false →
      medium_severity_words.any (fun w => isSub w (lowerStr pat)) = false →
      calculate_risk_level pat context = .low) := by
  unfold calculate_risk_level
  refine ⟨fun h1 => ?_, fun h1 h2 => ?_, fun h1 h2 h3 => ?_, fun h1 h2 h3 => ?_⟩
  · simp [h1]
  · simp [h1, h2]
  · simp [h1, h2, h3]
  · simp [h1, h2, h3]

/-- Witness for C7: each cascade tier realised at a concrete input. -/
theorem c7_severity_cascade_witness :
    calculate_risk_level "unlimited liability".toList [] = .critical ∧
    calculate_risk_level "liquidated damages".toList [] = .high ∧
    calculate_risk_level "penalty".toList [] = .medium ∧
    calculate_risk_level "hold harmless".toList [] = .low :=
  ⟨(c7_severity_cascade "unlimited liability".toList []).1 (by decide),
   (c7_severity_cascade "liquidated damages".toList []).2.1 (by decide) (by decide),
   (c7_severity_cascade "penalty".toList []).2.2.1 (by decide) (by decide) (by decide),
   (c7_severity_cascade "hold harmless".toList []).2.2.2 (by decide) (by decide) (by decide)⟩

/-! ## C2: score monotonicity -/

/-- C2 counterexample: on a document with one missing clause and no factors the
score is 10.0; appending one critical-severity factor with the detector's
confidence 0.85 drops it to 95/11 ≈ 8.64.  Adding a critical factor therefore
can decrease `overall_score`. -/
theorem c2_monotonicity_counterexample :
    (calculate_overall_risk_score ([] ++ [sampleCriticalFactor]) ["Force Majeure".toList]).1 <
      (calculate_overall_risk_score [] ["Force Majeure".toList]).1 := by
  norm_num [calculate_overall_risk_score, sampleCriticalFactor, risk_weights, min_def,
    riskLevelOfScore]

/-- C2 amended: appending a critical factor with the detector's confidence 0.85
never decreases the score when the factor list carries the detector's uniform
confidence and no clause is missing; and the score is monotone non-decreasing
in the missing-clause count whenever factor confidences lie in `[0, 1]`.  (With
missing clauses present, appending a critical factor can decrease the score.) -/
theorem c2_monotonicity_amended :
    (∀ (fs : List RiskFactor) (f : RiskFactor),
        (∀ g ∈ fs, g.confidence = 17/20) → f.level = .critical → f.confidence = 17/20 →
        (calculate_overall_risk_score fs []).1 ≤
          (calculate_overall_risk_score (fs ++ [f]) []).1) ∧
    (∀ (fs : List RiskFactor) (missing_clauses : List Str) (m : Str),
        (∀ g ∈ fs, 0 ≤ g.confidence ∧ g.confidence ≤ 1) →
        (calculate_overall_risk_score fs missing_clauses).1 ≤
          (calculate_overall_risk_score fs (missing_clauses ++ [m])).1) := by
  constructor
  · intro fs f hconf hlev hfc
    rcases fs with _ | ⟨g, gs⟩
    · simp only [List.nil_append]
      norm_num [calculate_overall_risk_score, risk_weights, hlev, hfc, min_def,
        riskLevelOfScore]
    · set fs := g :: gs with hfs
      have hS := factor_sum_le_detector fs hconf
      have hS0 : 0 ≤ (fs.map (fun x => risk_weights x.level * x.confidence)).sum :=
        factor_sum_nonneg fs (fun x hx => by rw [hconf x hx]; norm_num)
      set S := (fs.map (fun x => risk_weights x.level * x.confidence)).sum with hSdef
      have hn1 : (1 : ℚ) ≤ (fs.length : ℚ) := by
        rw [hfs]; simp only [List.length_cons]; push_cast; linarith [Nat.cast_nonneg (α := ℚ) gs.length]
      unfold calculate_overall_risk_score
      rw [if_neg (by rw [hfs]; simp), if_neg (by rw [hfs]; simp)]
      simp only [List.map_append, List.sum_append, List.length_append, List.map_cons,
        List.map_nil, List.sum_cons, List.sum_nil, List.length_cons, List.length_nil]
      have hw5 : risk_weights RiskLevel.critical * (17/20) = 17/4 := by
        norm_num [risk_weights]
      rw [hlev, hfc, hw5]
      simp only [List.length_nil, Nat.cast_zero, zero_mul, add_zero,
        Nat.cast_add, Nat.cast_one]
      rw [if_pos (by linarith), if_pos (by linarith)]
      apply min_le_min (le_refl 10)
      apply mul_le_mul_of_nonneg_right _ (by norm_num : (0:ℚ) ≤ 10)
      rw [div_le_div_iff₀ (by linarith) (by linarith)]
      nlinarith [hS, hS0, hn1]
  · intro fs ms m h
    by_cases hc : fs = [] ∧ ms = []
    · obtain ⟨rfl, rfl⟩ := hc
      norm_num [calculate_overall_risk_score, min_def, riskLevelOfScore]
    · have hS := factor_sum_le fs h
      have hS0 : 0 ≤ (fs.map (fun x => risk_weights x.level * x.confidence)).sum :=
        factor_sum_nonneg fs (fun x hx => (h x hx).1)
      set S := (fs.map (fun x => risk_weights x.level * x.confidence)).sum with hSdef
      have hM : 0 < (fs.length : ℚ) * 5 + (ms.length : ℚ) * (1/2) := by
        rcases (not_and_or.mp hc) with hfs | hms
        · have : 1 ≤ (fs.length : ℚ) := by
            have := List.length_pos.mpr hfs
            exact_mod_cast this
          have : (0:ℚ) ≤ (ms.length : ℚ) := Nat.cast_nonneg _
          linarith
        · have : 1 ≤ (ms.length : ℚ) := by
            have := List.length_pos.mpr hms
            exact_mod_cast this
          have : (0:ℚ) ≤ (fs.length : ℚ) := Nat.cast_nonneg _
          linarith
      unfold calculate_overall_risk_score
      rw [if_neg (by simp only [Bool.and_eq_true, List.isEmpty_iff]; tauto),
        if_neg (by simp)]
      simp only [List.length_append, List.length_cons, List.length_nil, Nat.cast_add,
        Nat.cast_one]
      rw [if_pos hM, if_pos (by linarith)]
      apply min_le_min (le_refl 10)
      apply mul_le_mul_of_nonneg_right _ (by norm_num : (0:ℚ) ≤ 10)
      rw [div_le_div_iff₀ hM (by linarith)]
      nlinarith [hS, hS0]

/-- Witness for C2 amended: both monotonicity statements applied at concrete
inputs (empty factor list, then one missing clause appended to none). -/
theorem c2_monotonicity_amended_witness :
    (calculate_overall_risk_score [] []).1 ≤
      (calculate_overall_risk_score ([] ++ [sampleCriticalFactor]) []).1 ∧
    (calculate_overall_risk_score [] []).1 ≤
      (calculate_overall_risk_score [] ([] ++ ["Force Majeure".toList])).1 :=
  ⟨c2_monotonicity_amended.1 [] sampleCriticalFactor (by simp) rfl rfl,
   c2_monotonicity_amended.2 [] [] "Force Majeure".toList (by simp)⟩

/-! ## C9: missing-clause detection -/

/-- C9: a text whose lowercased form contains "force majeure" is never listed
as missing the force-majeure clause, and a text containing none of the keyword
synonyms of any standard clause group reports all six clause types missing. -/
theorem c9_missing_clause_detection :
    (∀ text : Str, isSub "force majeure".toList (lowerStr text) = true →
      "Force Majeure".toList ∉ detect_missing_clauses text) ∧
    (∀ text : Str,
      (∀ p ∈ standard_clauses, ∀ kw ∈ p.2, isSub kw (lowerStr text) = false) →
      detect_missing_clauses text =
        ["Limitation Of Liability".toList, "Force Majeure".toList,
         "Confidentiality".toList, "Dispute Resolution".toList,
         "Termination Notice".toList, "Intellectual Property".toList]) := by
  constructor
  · intro text hfm hmem
    unfold detect_missing_clauses at hmem
    rw [List.mem_filterMap] at hmem
    obtain ⟨p, hp, heq⟩ := hmem
    simp only [standard_clauses, List.mem_cons, List.not_mem_nil, or_false] at hp
    rcases hp with rfl | rfl | rfl | rfl | rfl | rfl
    · split at heq
      · exact Option.noConfusion heq
      · exact absurd (Option.some.inj heq) (by decide)
    · split at heq
      · exact Option.noConfusion heq
      · rename_i hcond
        exact absurd
          (by simp only [List.any_cons, List.any_nil, Bool.or_eq_true]
              exact Or.inl hfm) hcond
    · split at heq
      · exact Option.noConfusion heq
      · exact absurd (Option.some.inj heq) (by decide)
    · split at heq
      · exact Option.noConfusion heq
      · exact absurd (Option.some.inj heq) (by decide)
    · split at heq
      · exact Option.noConfusion heq
      · exact absurd (Option.some.inj heq) (by decide)
    · split at heq
      · exact Option.noConfusion heq
      · exact absurd (Option.some.inj heq) (by decide)
  · intro text h
    have hkw : ∀ kw ∈ standard_clauses.flatMap (fun p => p.2),
        isSub kw (lowerStr text) = false := by
      intro kw hmem
      rw [List.mem_flatMap] at hmem
      obtain ⟨p, hp, hkp⟩ := hmem
      exact h p hp kw hkp
    have h01 := hkw "limitation of liability".toList (by decide)
    have h02 := hkw "liability cap".toList (by decide)
    have h03 := hkw "damages limitation".toList (by decide)
    have h04 := hkw "force majeure".toList (by decide)
    have h05 := hkw "act of god".toList (by decide)
    have h06 := hkw "unforeseeable circumstances".toList (by decide)
    have h07 := hkw "confidentiality".toList (by decide)
    have h08 := hkw "non-disclosure".toList (by decide)
    have h09 := hkw "proprietary information".toList (by decide)
    have h10 := hkw "dispute resolution".toList (by decide)
    have h11 := hkw "arbitration".toList (by decide)
    have h12 := hkw "mediation".toList (by decide)
    have h13 := hkw "governing law".toList (by decide)
    have h14 := hkw "termination notice".toList (by decide)
    have h15 := hkw "notice period".toList (by decide)
    have h16 := hkw "advance notice".toList (by decide)
    have h17 := hkw "intellectual property".toList (by decide)
    have h18 := hkw "ip rights".toList (by decide)
    have h19 := hkw "proprietary rights".toList (by decide)
    unfold detect_missing_clauses
    simp only [standard_clauses, List.filterMap_cons, List.filterMap_nil, List.any_cons,
      List.any_nil, h01, h02, h03, h04, h05, h06, h07, h08, h09, h10, h11, h12, h13,
      h14, h15, h16, h17, h18, h19, Bool.or_false, Bool.false_or]
    decide

/-- Witness for C9: a document containing "Force Majeure" text, and the empty
document which misses every clause group. -/
theorem c9_missing_clause_detection_witness :
    "Force Majeure".toList ∉ detect_missing_clauses "A Force Majeure clause applies.".toList ∧
    detect_missing_clauses [] =
      ["Limitation Of Liability".toList, "Force Majeure".toList,
       "Confidentiality".toList, "Dispute Resolution".toList,
       "Termination Notice".toList, "Intellectual Property".toList] :=
  ⟨c9_missing_clause_detection.1 "A Force Majeure clause applies.".toList (by decide),
   c9_missing_clause_detection.2 [] (by decide)⟩

/-! ## C6: routing priority -/

/-- C6: the routing cascade checks the money keywords first, so any question
whose lowercased form contains a money keyword and a payment keyword is
dispatched to the money extractor, never to the payment extractor. -/
theorem c6_money_routing_priority (question : Str)
    (hmoney : money_keywords.any (fun w => isSub w (lowerStr question)) = true)
    (_hpay : payment_keywords.any (fun w => isSub w (lowerStr question)) = true) :
    routeQuestion question = .money ∧
    ∀ (text country_preference : Str),
      answer_question text question country_preference =
        answer_money_question text question country_preference := by
  refine ⟨?_, fun text country_preference => ?_⟩
  · unfold routeQuestion
    rw [if_pos hmoney]
  · unfold answer_question
    rw [if_pos hmoney]

/-- Witness for C6 at the spec's example question, which contains the money
keywords "payment" and "amount" and the payment keyword "payment". -/
theorem c6_money_routing_priority_witness :
    routeQuestion "What is the payment amount due?".toList = .money ∧
    answer_question [] "What is the payment amount due?".toList [] =
      answer_money_question [] "What is the payment amount due?".toList [] := by
  have h := c6_money_routing_priority "What is the payment amount due?".toList
    (by decide) (by decide)
  exact ⟨h.1, h.2 [] []⟩

/-! ## C1: the jurisdiction-preference currency filter -/

/-- A document whose only monetary mention is the USD amount `$500`. -/
def c1_document : Str := "Fee: $500.".toList

/-- A money-routed question (contains the money keyword "value"). -/
def c1_question : Str := "What is the contract value?".toList

/-- C1: the keys of `currency_patterns` are currency codes, so the preference
"India" is not found and falls into the union-all branch exactly like
"International": both return the positive answer listing `$500` with
confidence 0.9.  (Only the currency-code preference "INR" selects the rupee
patterns and yields the negative answer.)  This contradicts the documented
currency filter, which expects preference "India" to produce the negative
"no monetary amounts found" answer with confidence 0.3. -/
theorem c1_india_preference_not_filtered :
    answer_question c1_document c1_question "India".toList =
      { question := c1_question,
        answer := "Found monetary amounts: $500".toList,
        confidence := 9/10,
        context := "Fee: $500.".toList,
        sources := ["$500".toList] } ∧
    answer_question c1_document c1_question "International".toList =
      answer_question c1_document c1_question "India".toList ∧
    (answer_question c1_document c1_question "India".toList).answer ≠ no_money_answer ∧
    answer_question c1_document c1_question "INR".toList =
      { question := c1_question, answer := no_money_answer, confidence := 3/10 } :=
  ⟨rfl, rfl, by decide, rfl⟩

/-! ## C10: a fresh engine answers from the empty document -/

/-- Every pattern battery of the QA engine finds no match in the empty
document. -/
theorem pyFinditer_empty_all :
    ∀ r ∈ ([usd1, usd2, usd3, cad1, cad2, cad3, gbp1, gbp2, gbp3, inr1, inr2, inr3,
        inr4, inr5, eur1, eur2, eur3, company1, company2, people1, people2] ++
        date_patterns ++ jurisdiction_patterns ++ termination_patterns ++
        payment_patterns),
      pyFinditer r [] = [] := by decide

/-- The money extractor on the empty document returns its negative answer for
every question and every country preference. -/
theorem answer_money_question_empty (question country_preference : Str) :
    answer_money_question [] question country_preference =
      { question := question, answer := no_money_answer, confidence := 3/10 } := by
  unfold answer_money_question
  cases hfind : currency_patterns.find? (fun p => p.1 == country_preference) with
  | none =>
    simp only [hfind]
    rfl
  | some p =>
    have hp := List.mem_of_find?_eq_some hfind
    simp only [hfind]
    simp only [currency_patterns, List.mem_cons, List.not_mem_nil, or_false] at hp
    rcases hp with rfl | rfl | rfl | rfl | rfl <;> rfl

/-- The party extractor on the empty document returns its negative answer. -/
theorem answer_party_question_empty (question : Str) :
    answer_party_question [] question =
      { question := question, answer := no_party_answer, confidence := 3/10 } := by
  unfold answer_party_question
  cases hpw : person_words.any (fun w => isSub w (lowerStr question)) <;>
    simp only [hpw] <;> rfl

/-- The date extractor on the empty document returns its negative answer. -/
theorem answer_date_question_empty (question : Str) :
    answer_date_question [] question =
      { question := question, answer := no_date_answer, confidence := 3/10 } := rfl

/-- The jurisdiction extractor on the empty document returns its negative
answer. -/
theorem answer_jurisdiction_question_empty (question : Str) :
    answer_jurisdiction_question [] question =
      { question := question, answer := no_jurisdiction_answer, confidence := 3/10 } := rfl

/-- The termination extractor on the empty document returns its negative
answer. -/
theorem answer_termination_question_empty (question : Str) :
    answer_termination_question [] question =
      { question := question, answer := no_termination_answer, confidence := 3/10 } := rfl

/-- The payment extractor on the empty document returns its negative answer. -/
theorem answer_payment_question_empty (question : Str) :
    answer_payment_question [] question =
      { question := question, answer := no_payment_answer, confidence := 3/10 } := rfl

/-- No word of length above 3 is a substring of the empty sentence. -/
theorem word_filter_empty (ws : List Str) :
    ws.filter (fun w => isSub w (lowerStr []) && 3 < w.length) = [] := by
  rw [List.filter_eq_nil_iff]
  intro w _
  cases w with
  | nil => simp
  | cons c t => simp [isSub, lowerStr]

/-- The general fallback on the empty document returns its negative answer:
the only sentence is empty, so no question word of length above 3 occurs in
it and no sentence reaches the relevance threshold 2. -/
theorem answer_general_question_empty (question : Str) :
    answer_general_question [] question =
      { question := question, answer := general_not_found, confidence := 1/5 } := by
  unfold answer_general_question
  simp only [splitPunct, List.filter_cons, List.filter_nil, word_filter_empty,
    List.length_nil, List.map_nil]
  rfl

/-- C10: a freshly constructed engine stores the empty document, and
`answer_question` on it never raises: every question is answered by the routed
extractor's fixed low-confidence negative result. -/
theorem c10_fresh_engine_empty_document :
    engineInit.document_text = [] ∧
    ∀ (question country_preference : Str),
      answer_question engineInit.document_text question country_preference =
        (match routeQuestion question with
          | .money => { question := question, answer := no_money_answer, confidence := 3/10 }
          | .party => { question := question, answer := no_party_answer, confidence := 3/10 }
          | .date => { question := question, answer := no_date_answer, confidence := 3/10 }
          | .jurisdiction =>
              { question := question, answer := no_jurisdiction_answer, confidence := 3/10 }
          | .termination =>
              { question := question, answer := no_termination_answer, confidence := 3/10 }
          | .payment => { question := question, answer := no_payment_answer, confidence := 3/10 }
          | .general =>
              { question := question, answer := general_not_found, confidence := 1/5 }) := by
  refine ⟨rfl, fun question country_preference => ?_⟩
  show answer_question [] question country_preference = _
  cases h1 : money_keywords.any (fun w => isSub w (lowerStr question)) with
  | true =>
    have hroute : routeQuestion question = .money := by
      simp only [routeQuestion]
      rw [if_pos h1]
    rw [hroute]
    simp only [answer_question]
    rw [if_pos h1]
    exact answer_money_question_empty question country_preference
  | false =>
    have hn1 : ¬(money_keywords.any (fun w => isSub w (lowerStr question))) = true := by
      rw [h1]; exact Bool.false_ne_true
    cases h2 : party_keywords.any (fun w => isSub w (lowerStr question)) with
    | true =>
      have hroute : routeQuestion question = .party := by
        simp only [routeQuestion]
        rw [if_neg hn1, if_pos h2]
      rw [hroute]
      simp only [answer_question]
      rw [if_neg hn1, if_pos h2]
      exact answer_party_question_empty question
    | false =>
      have hn2 : ¬(party_keywords.any (fun w => isSub w (lowerStr question))) = true := by
        rw [h2]; exact Bool.false_ne_true
      cases h3 : date_keywords.any (fun w => isSub w (lowerStr question)) with
      | true =>
        have hroute : routeQuestion question = .date := by
          simp only [routeQuestion]
          rw [if_neg hn1, if_neg hn2, if_pos h3]
        rw [hroute]
        simp only [answer_question]
        rw [if_neg hn1, if_neg hn2, if_pos h3]
        exact answer_date_question_empty question
      | false =>
        have hn3 : ¬(date_keywords.any (fun w => isSub w (lowerStr question))) = true := by
          rw [h3]; exact Bool.false_ne_true
        cases h4 : jurisdiction_keywords.any (fun w => isSub w (lowerStr question)) with
        | true =>
          have hroute : routeQuestion question = .jurisdiction := by
            simp only [routeQuestion]
            rw [if_neg hn1, if_neg hn2, if_neg hn3, if_pos h4]
          rw [hroute]
          simp only [answer_question]
          rw [if_neg hn1, if_neg hn2, if_neg hn3, if_pos h4]
          exact answer_jurisdiction_question_empty question
        | false =>
          have hn4 : ¬(jurisdiction_keywords.any (fun w => isSub w (lowerStr question))) = true := by
            rw [h4]; exact Bool.false_ne_true
          cases h5 : termination_keywords.any (fun w => isSub w (lowerStr question)) with
          | true =>
            have hroute : routeQuestion question = .termination := by
              simp only [routeQuestion]
              rw [if_neg hn1, if_neg hn2, if_neg hn3, if_neg hn4, if_pos h5]
            rw [hroute]
            simp only [answer_question]
            rw [if_neg hn1, if_neg hn2, if_neg hn3, if_neg hn4, if_pos h5]
            exact answer_termination_question_empty question
          | false =>
            have hn5 : ¬(termination_keywords.any (fun w => isSub w (lowerStr question))) = true := by
              rw [h5]; exact Bool.false_ne_true
            cases h6 : payment_keywords.any (fun w => isSub w (lowerStr question)) with
            | true =>
              have hroute : routeQuestion question = .payment := by
                simp only [routeQuestion]
                rw [if_neg hn1, if_neg hn2, if_neg hn3, if_neg hn4, if_neg hn5, if_pos h6]
              rw [hroute]
              simp only [answer_question]
              rw [if_neg hn1, if_neg hn2, if_neg hn3, if_neg hn4, if_neg hn5, if_pos h6]
              exact answer_payment_question_empty question
            | false =>
              have hn6 : ¬(payment_keywords.any (fun w => isSub w (lowerStr question))) = true := by
                rw [h6]; exact Bool.false_ne_true
              have hroute : routeQuestion question = .general := by
                simp only [routeQuestion]
                rw [if_neg hn1, if_neg hn2, if_neg hn3, if_neg hn4, if_neg hn5, if_neg hn6]
              rw [hroute]
              simp only [answer_question]
              rw [if_neg hn1, if_neg hn2, if_neg hn3, if_neg hn4, if_neg hn5, if_neg hn6]
              exact answer_general_question_empty question

end LegalAI
